import Mathlib

/-!
Shallow embedding of the client-side code of the code-review platform:
the axios instance with its two interceptors (src/unnamed/part_000,
"src/services/api.js"), the auth, project and analysis service wrappers,
the useAnalysis polling hook, and the Register submit handler
(src/Login.jsx, "src/pages/Register.jsx").

Stateful browser facilities are modeled explicitly: localStorage is a
record holding the single key the client uses ("token"), navigation is a
location field plus a redirect counter, and the setInterval timer of the
polling hook is a liveness flag updated by clearInterval. Each awaited
network call is modeled by passing its outcome (resolved value or
rejection message) as an argument, and one firing of the interval
callback is applied atomically, matching the serialized execution model
of the UI client.
-/

namespace CodeReviewClient

/-- The localStorage of the browser restricted to the single key the
client reads and writes, "token". `none` models absence of the key
(getItem returns null). -/
structure Storage where
  token : Option String
deriving Repr, DecidableEq

/-- JavaScript truthiness of a localStorage.getItem result: null and the
empty string are falsy, every other string is truthy. -/
def truthy (v : Option String) : Bool :=
  match v with
  | none => false
  | some s => if s = "" then false else true

/-- An outgoing request as seen by the request interceptor: its URL and
the Authorization header, absent until the interceptor sets it. -/
structure RequestConfig where
  url : String
  authorization : Option String
deriving Repr, DecidableEq

/-- Browser-global state touched by the response interceptor: storage,
the current location (set by assigning window.location.href) and a count
of redirects performed. -/
structure Browser where
  storage : Storage
  locationHref : Option String
  redirects : Nat
deriving Repr, DecidableEq

/-- A rejected axios call as seen by the response interceptor: the URL of
the endpoint that was called and the HTTP status of the response when one
exists (a network failure has no response, hence `none`). -/
structure AxiosError where
  url : String
  responseStatus : Option Nat
deriving Repr, DecidableEq

namespace api

/-- Request interceptor (part_000 lines 14-23): reads the token from
localStorage; when it is truthy (non-null, non-empty) the Authorization
header is set to "Bearer " followed by the token, otherwise the config
passes through unchanged. -/
def requestInterceptor (st : Storage) (config : RequestConfig) : RequestConfig :=
  match st.token with
  | some token =>
      if token = "" then config
      else { config with authorization := some ("Bearer " ++ token) }
  | none => config

/-- Response interceptor error handler (part_000 lines 26-35): when the
error carries a response with status 401 it removes the token from
storage and assigns "/login" to window.location.href (one redirect);
every other error leaves the browser untouched. The error is re-rejected
either way, which carries no browser state. -/
def responseErrorInterceptor (e : AxiosError) (b : Browser) : Browser :=
  if e.responseStatus = some 401 then
    { storage := { token := none },
      locationHref := some "/login",
      redirects := b.redirects + 1 }
  else b

end api

namespace authService

/-- Body of a resolved POST /auth/login response as the client reads it:
only the access_token field is consulted, and it may be absent. -/
structure LoginBody where
  access_token : Option String
deriving Repr, DecidableEq

/-- authService.login, storage effect (part_000 lines 49-56): the
access_token is destructured from the response body and written under
the key "token" before the function returns. When the field is absent
the destructured value is undefined and localStorage.setItem coerces it
to the string "undefined". -/
def login (body : LoginBody) : Storage :=
  match body.access_token with
  | some t => { token := some t }
  | none => { token := some "undefined" }

/-- authService.isAuthenticated (part_000 lines 68-70): double negation
of localStorage.getItem, i.e. JavaScript truthiness of the stored
value. -/
def isAuthenticated (st : Storage) : Bool :=
  truthy st.token

end authService

namespace projectService

/-- Multipart form data: the ordered list of (field name, value) entries
built by successive FormData.append calls. Files are opaque and stand
for their value. -/
structure FormDataModel where
  entries : List (String × String)
deriving Repr, DecidableEq

/-- FormData.append adds one entry at the end, never replacing existing
entries for the same field name. -/
def FormDataModel.append (fd : FormDataModel) (key value : String) : FormDataModel :=
  { entries := fd.entries ++ [(key, value)] }

/-- The multipart POST issued by uploadFiles. `sent` records that the
request was issued. -/
structure UploadRequest where
  url : String
  contentType : String
  formData : FormDataModel
  sent : Bool
deriving Repr, DecidableEq

/-- projectService.uploadFiles (part_000 lines 97-107): builds a FormData
by appending each selected file under the field "files" with forEach,
then issues the multipart POST unconditionally; there is no branch on
the number of files. -/
def uploadFiles (projectId : String) (files : List String) : UploadRequest :=
  { url := "/projects/" ++ projectId ++ "/upload",
    contentType := "multipart/form-data",
    formData := files.foldl (fun fd file => fd.append "files" file) { entries := [] },
    sent := true }

end projectService

namespace Register

/-- The registration form state (Login.jsx lines 93-99). -/
structure RegisterForm where
  username : String
  email : String
  full_name : String
  password : String
  confirmPassword : String
deriving Repr, DecidableEq

/-- Outcome of the submit handler up to the point where the register
service call is or is not issued: the validation error set on the form,
and whether the network call was reached. -/
structure SubmitOutcome where
  error : Option String
  registerCalled : Bool
deriving Repr, DecidableEq

/-- Register.handleSubmit validation phase (Login.jsx lines 106-129):
clears the error, returns with an error when the two password fields
differ, then returns with an error when the password has fewer than 8
characters; only past both checks is the register service called. -/
def handleSubmit (f : RegisterForm) : SubmitOutcome :=
  if f.password ≠ f.confirmPassword then
    { error := some "Passwords do not match", registerCalled := false }
  else if f.password.length < 8 then
    { error := some "Password must be at least 8 characters", registerCalled := false }
  else
    { error := none, registerCalled := true }

end Register

namespace useAnalysis

/-- Outcome of one awaited service call: the resolved value, or the
message of the rejection. -/
inductive ApiResult (α : Type) where
  | ok (value : α)
  | err (message : String)
deriving Repr, DecidableEq

/-- The state of the useAnalysis hook (part_000 lines 202-205) together
with the liveness of the interval timer installed by pollStatus and the
mounted flag of the owning component. -/
structure AnalysisState where
  analysis : Option String
  status : String
  loading : Bool
  error : Option String
  intervalActive : Bool
  mounted : Bool
deriving Repr, DecidableEq

/-- Initial hook state: useState initializers at part_000 lines 202-205,
no timer installed, component mounted. -/
def initialState : AnalysisState :=
  { analysis := none, status := "not_started", loading := false,
    error := none, intervalActive := false, mounted := true }

/-- The delay passed to setInterval at part_000 line 235, in
milliseconds. -/
def POLL_INTERVAL_MS : Nat := 3000

/-- fetchResults (part_000 lines 240-249): on success stores the results
and clears loading; on failure records the error message and clears
loading. The status field is never written. -/
def fetchResults (s : AnalysisState) (resp : ApiResult String) : AnalysisState :=
  match resp with
  | .ok results => { s with analysis := some results, loading := false }
  | .err m => { s with error := some m, loading := false }

/-- startAnalysis (part_000 lines 207-218): sets loading and clears the
error; when the POST resolves it sets status to "processing" and calls
pollStatus, which installs the interval timer; when the POST rejects it
records the error message and clears loading, leaving status and any
existing timer untouched. -/
def startAnalysis (s : AnalysisState) (resp : ApiResult Unit) : AnalysisState :=
  match resp with
  | .ok _ =>
      { s with loading := true, error := none,
               status := "processing", intervalActive := true }
  | .err m => { s with error := some m, loading := false }

/-- State and network activity of one firing of the interval callback:
the counts are the status requests and result fetches issued during that
firing. -/
structure TickResult where
  state : AnalysisState
  statusRequests : Nat
  resultFetches : Nat
deriving Repr, DecidableEq

/-- One firing of the interval callback installed by pollStatus (part_000
lines 221-235), applied atomically: when the timer is live the callback
issues one status request; on a resolved status it stores the value, and
when that value is "completed" it clears the interval and then performs
one fetchResults; on a rejected status it clears the interval, records
the error and clears loading. A firing of a cleared timer does nothing
and issues no request. -/
def pollTick (s : AnalysisState) (resp : ApiResult String)
    (fetchResp : ApiResult String) : TickResult :=
  if s.intervalActive then
    match resp with
    | .ok v =>
        if v = "completed" then
          { state := fetchResults { s with status := v, intervalActive := false } fetchResp,
            statusRequests := 1, resultFetches := 1 }
        else
          { state := { s with status := v }, statusRequests := 1, resultFetches := 0 }
    | .err m =>
        { state := { s with intervalActive := false, error := some m, loading := false },
          statusRequests := 1, resultFetches := 0 }
  else
    { state := s, statusRequests := 0, resultFetches := 0 }

/-- Teardown of the owning component. The useEffect of the hook (part_000
lines 251-258) returns no cleanup function, and the cleanup closure
returned by pollStatus at line 237 is discarded by its caller
(startAnalysis, line 213), so unmounting runs no clearInterval: only the
mounted flag changes. -/
def unmount (s : AnalysisState) : AnalysisState :=
  { s with mounted := false }

/-- The events that drive the hook state: a startAnalysis call with the
outcome of its POST, one firing of the interval callback with the
outcomes of the status request and of the result fetch, and teardown of
the owning component. -/
inductive Ev where
  | start (resp : ApiResult Unit)
  | tick (resp : ApiResult String) (fetchResp : ApiResult String)
  | teardown
deriving Repr, DecidableEq

/-- One event applied to the hook state. -/
def step (s : AnalysisState) : Ev → AnalysisState
  | .start resp => startAnalysis s resp
  | .tick resp fetchResp => (pollTick s resp fetchResp).state
  | .teardown => unmount s

/-- A sequence of events applied to the hook state. -/
def run (s : AnalysisState) (evs : List Ev) : AnalysisState :=
  evs.foldl step s

/-- A sequence of interval-callback firings, returning the final state
and the total number of status requests issued. -/
def runTicks (s : AnalysisState) :
    List (ApiResult String × ApiResult String) → AnalysisState × Nat
  | [] => (s, 0)
  | (r, f) :: rest =>
      let t := pollTick s r f
      let p := runTicks t.state rest
      (p.1, t.statusRequests + p.2)

/-- The status enumeration named by the specification. -/
def statusEnum : List String := ["not_started", "processing", "completed"]

/-- Holds of an event when it is not a tick whose status request resolved
with a value outside the status enumeration. -/
def tickValueInEnum : Ev → Bool
  | .tick (.ok v) _ => decide (v ∈ statusEnum)
  | _ => true

end useAnalysis

open useAnalysis

/-! ## Helper lemmas -/

/-- fetchResults never writes the status field. -/
theorem fetchResults_status (s : AnalysisState) (r : ApiResult String) :
    (fetchResults s r).status = s.status := by
  cases r <;> rfl

/-- fetchResults never touches the interval timer. -/
theorem fetchResults_intervalActive (s : AnalysisState) (r : ApiResult String) :
    (fetchResults s r).intervalActive = s.intervalActive := by
  cases r <;> rfl

/-- A firing of a cleared timer issues no request and changes nothing. -/
theorem pollTick_inactive (s : AnalysisState) (r f : ApiResult String)
    (h : s.intervalActive = false) :
    pollTick s r f = { state := s, statusRequests := 0, resultFetches := 0 } := by
  simp [pollTick, h]

/-- Once the timer is cleared, an arbitrary sequence of firings issues no
request and leaves the state unchanged. -/
theorem runTicks_of_inactive (l : List (ApiResult String × ApiResult String))
    (s : AnalysisState) (h : s.intervalActive = false) :
    runTicks s l = (s, 0) := by
  induction l with
  | nil => rfl
  | cons p rest ih =>
      obtain ⟨r, f⟩ := p
      simp [runTicks, pollTick_inactive s r f h, ih]

/-- A firing whose status request resolves with "completed" or rejects
leaves the timer cleared. -/
theorem pollTick_terminal_inactive (s : AnalysisState) (r f : ApiResult String)
    (h : r = ApiResult.ok "completed" ∨ ∃ m, r = ApiResult.err m) :
    (pollTick s r f).state.intervalActive = false := by
  cases hb : s.intervalActive with
  | false => simp [pollTick, hb]
  | true =>
      rcases h with h | ⟨m, h⟩ <;> subst h
      · simp [pollTick, hb, fetchResults_intervalActive]
      · simp [pollTick, hb]

/-- One event preserves membership of the status in the enumeration,
provided a tick event carries a resolved status value from the
enumeration. -/
theorem step_status_mem (s : AnalysisState) (ev : Ev)
    (hs : s.status ∈ statusEnum) (hev : tickValueInEnum ev = true) :
    (step s ev).status ∈ statusEnum := by
  cases ev with
  | start r =>
      cases r with
      | ok _ => simp [step, startAnalysis, statusEnum]
      | err m => simpa [step, startAnalysis] using hs
  | tick r f =>
      cases hb : s.intervalActive with
      | false => simpa [step, pollTick, hb] using hs
      | true =>
          cases r with
          | ok v =>
              have hv : v ∈ statusEnum := by
                simpa [tickValueInEnum, decide_eq_true_eq] using hev
              by_cases hc : v = "completed"
              · subst hc
                simpa [step, pollTick, hb, fetchResults_status] using hv
              · simpa [step, pollTick, hb, hc] using hv
          | err m => simpa [step, pollTick, hb] using hs
  | teardown => simpa [step, unmount] using hs

/-- A sequence of events preserves membership of the status in the
enumeration, provided every tick event carries a resolved status value
from the enumeration. -/
theorem run_status_mem (evs : List Ev) : ∀ s : AnalysisState,
    s.status ∈ statusEnum → (∀ ev ∈ evs, tickValueInEnum ev = true) →
    (run s evs).status ∈ statusEnum := by
  induction evs with
  | nil => intro s hs _; exact hs
  | cons ev rest ih =>
      intro s hs h
      have hev : tickValueInEnum ev = true := h ev (List.mem_cons_self ev rest)
      have hrest : ∀ e ∈ rest, tickValueInEnum e = true :=
        fun e he => h e (List.mem_cons_of_mem ev he)
      exact ih (step s ev) (step_status_mem s ev hs hev) hrest

/-- Folding FormData.append over a file list appends one "files" entry
per file, in order. -/
theorem foldl_append_entries (files : List String) :
    ∀ fd : projectService.FormDataModel,
    (files.foldl (fun fd file => fd.append "files" file) fd).entries
      = fd.entries ++ files.map (fun f => ("files", f)) := by
  induction files with
  | nil => intro fd; simp
  | cons file rest ih =>
      intro fd
      rw [List.foldl_cons, ih]
      simp [projectService.FormDataModel.append]

/-! ## Claim theorems -/

/-- C1: for every response with status 401 received through the shared
API client, whatever endpoint was called and whatever the prior browser
state, the response interceptor removes the stored token, navigates to
the login view, and performs exactly one redirect for that response. -/
theorem c1_status_401_clears_token_and_redirects_once
    (e : AxiosError) (b : Browser) (h : e.responseStatus = some 401) :
    (api.responseErrorInterceptor e b).storage.token = none ∧
    (api.responseErrorInterceptor e b).locationHref = some "/login" ∧
    (api.responseErrorInterceptor e b).redirects = b.redirects + 1 := by
  simp [api.responseErrorInterceptor, h]

/-- Witness for C1 at a concrete 401 error and browser state. -/
theorem c1_witness :
    (api.responseErrorInterceptor { url := "/projects", responseStatus := some 401 }
        { storage := { token := some "tok" }, locationHref := none,
          redirects := 0 }).storage.token = none ∧
    (api.responseErrorInterceptor { url := "/projects", responseStatus := some 401 }
        { storage := { token := some "tok" }, locationHref := none,
          redirects := 0 }).locationHref = some "/login" ∧
    (api.responseErrorInterceptor { url := "/projects", responseStatus := some 401 }
        { storage := { token := some "tok" }, locationHref := none,
          redirects := 0 }).redirects =
      ({ storage := { token := some "tok" }, locationHref := none,
         redirects := 0 } : Browser).redirects + 1 :=
  c1_status_401_clears_token_and_redirects_once
    { url := "/projects", responseStatus := some 401 }
    { storage := { token := some "tok" }, locationHref := none, redirects := 0 }
    rfl

/-- C2: a firing whose status request resolves with "completed" or
rejects leaves the interval timer cleared, and every subsequent sequence
of firings of that loop issues zero status requests. -/
theorem c2_poll_loop_stops_after_completed_or_error
    (s : AnalysisState) (r f : ApiResult String)
    (h : r = ApiResult.ok "completed" ∨ ∃ m, r = ApiResult.err m) :
    (pollTick s r f).state.intervalActive = false ∧
    ∀ rest, (runTicks (pollTick s r f).state rest).2 = 0 := by
  have hin := pollTick_terminal_inactive s r f h
  exact ⟨hin, fun rest => by rw [runTicks_of_inactive rest _ hin]⟩

/-- Witness for C2: after a "completed" tick from a live polling state,
two further firings issue zero requests. -/
theorem c2_witness :
    (pollTick (startAnalysis initialState (ApiResult.ok ()))
        (ApiResult.ok "completed") (ApiResult.ok "res")).state.intervalActive
      = false ∧
    ∀ rest, (runTicks (pollTick (startAnalysis initialState (ApiResult.ok ()))
        (ApiResult.ok "completed") (ApiResult.ok "res")).state rest).2 = 0 :=
  c2_poll_loop_stops_after_completed_or_error
    (startAnalysis initialState (ApiResult.ok ()))
    (ApiResult.ok "completed") (ApiResult.ok "res") (Or.inl rfl)

/-- C3: the interval delay is 3000 milliseconds, and on a firing whose
status request resolves with "completed" from a live timer the callback
issues exactly one status request, clears the timer, and performs
exactly one result fetch. -/
theorem c3_completed_tick_cancels_then_fetches_once
    (s : AnalysisState) (f : ApiResult String) (h : s.intervalActive = true) :
    POLL_INTERVAL_MS = 3000 ∧
    (pollTick s (ApiResult.ok "completed") f).statusRequests = 1 ∧
    (pollTick s (ApiResult.ok "completed") f).state.intervalActive = false ∧
    (pollTick s (ApiResult.ok "completed") f).resultFetches = 1 := by
  refine ⟨rfl, ?_, ?_, ?_⟩ <;>
    simp [pollTick, h, fetchResults_intervalActive]

/-- Witness for C3 at the state reached by a successful startAnalysis. -/
theorem c3_witness :
    POLL_INTERVAL_MS = 3000 ∧
    (pollTick (startAnalysis initialState (ApiResult.ok ()))
        (ApiResult.ok "completed") (ApiResult.ok "res")).statusRequests = 1 ∧
    (pollTick (startAnalysis initialState (ApiResult.ok ()))
        (ApiResult.ok "completed") (ApiResult.ok "res")).state.intervalActive
      = false ∧
    (pollTick (startAnalysis initialState (ApiResult.ok ()))
        (ApiResult.ok "completed") (ApiResult.ok "res")).resultFetches = 1 :=
  c3_completed_tick_cancels_then_fetches_once
    (startAnalysis initialState (ApiResult.ok ())) (ApiResult.ok "res") rfl

/-- C4: the claim fails on the code. The useEffect of the hook registers
no cleanup function and the cleanup closure returned by pollStatus is
discarded, so after a successful startAnalysis followed by an unmount
the interval timer is still live and the next firing still issues a
status request. -/
theorem c4_unmount_leaves_timer_active :
    (unmount (startAnalysis initialState (ApiResult.ok ()))).intervalActive
      = true ∧
    (pollTick (unmount (startAnalysis initialState (ApiResult.ok ())))
        (ApiResult.ok "processing") (ApiResult.ok "res")).statusRequests = 1 :=
  ⟨rfl, rfl⟩

/-- C5: whenever the password differs from its confirmation or is
shorter than 8 characters, Register.handleSubmit sets an error and the
register service call is never reached. -/
theorem c5_invalid_password_blocks_network
    (f : Register.RegisterForm)
    (h : f.password ≠ f.confirmPassword ∨ f.password.length < 8) :
    (Register.handleSubmit f).registerCalled = false ∧
    (Register.handleSubmit f).error ≠ none := by
  unfold Register.handleSubmit
  by_cases hm : f.password = f.confirmPassword
  · rcases h with h | h
    · exact absurd hm h
    · rw [hm] at h
      simp [hm, h]
  · simp [hm]

/-- Witness for C5 at a concrete form with a 5-character password. -/
theorem c5_witness :
    (Register.handleSubmit
        { username := "u", email := "u@example.com", full_name := "U",
          password := "short", confirmPassword := "short" }).registerCalled
      = false ∧
    (Register.handleSubmit
        { username := "u", email := "u@example.com", full_name := "U",
          password := "short", confirmPassword := "short" }).error ≠ none :=
  c5_invalid_password_blocks_network
    { username := "u", email := "u@example.com", full_name := "U",
      password := "short", confirmPassword := "short" }
    (Or.inr (by decide))

/-- C6 fails as stated: when no token is stored, the request interceptor
attaches no Authorization header, so a request through the shared client
does not carry a Bearer header. -/
theorem c6_counterexample :
    (api.requestInterceptor { token := none }
        { url := "/projects", authorization := none }).authorization = none :=
  rfl

/-- C6 (amended): every request sent through the shared client while a
truthy (non-empty) session token is stored carries the header
Authorization: Bearer followed by that token. -/
theorem c6_amended_bearer_header_when_token_stored
    (st : Storage) (c : RequestConfig) (t : String)
    (h : st.token = some t) (hne : t ≠ "") :
    (api.requestInterceptor st c).authorization = some ("Bearer " ++ t) := by
  simp [api.requestInterceptor, h, hne]

/-- Witness for the amended C6 at a concrete stored token. -/
theorem c6_witness :
    (api.requestInterceptor { token := some "abc" }
        { url := "/projects", authorization := none }).authorization
      = some ("Bearer " ++ "abc") :=
  c6_amended_bearer_header_when_token_stored { token := some "abc" }
    { url := "/projects", authorization := none } "abc" rfl (by decide)

/-- C7: when the status request of a live firing rejects, the error
message is surfaced, loading is cleared, the timer is cancelled, and the
status field keeps its current value. -/
theorem c7_error_tick_surfaces_error_preserves_status
    (s : AnalysisState) (m : String) (f : ApiResult String)
    (h : s.intervalActive = true) :
    (pollTick s (ApiResult.err m) f).state.error = some m ∧
    (pollTick s (ApiResult.err m) f).state.loading = false ∧
    (pollTick s (ApiResult.err m) f).state.intervalActive = false ∧
    (pollTick s (ApiResult.err m) f).state.status = s.status := by
  refine ⟨?_, ?_, ?_, ?_⟩ <;> simp [pollTick, h]

/-- Witness for C7: a failing status request while the status field
holds "processing" leaves it at "processing". -/
theorem c7_witness :
    (pollTick (startAnalysis initialState (ApiResult.ok ()))
        (ApiResult.err "Network Error") (ApiResult.ok "res")).state.error
      = some "Network Error" ∧
    (pollTick (startAnalysis initialState (ApiResult.ok ()))
        (ApiResult.err "Network Error") (ApiResult.ok "res")).state.loading
      = false ∧
    (pollTick (startAnalysis initialState (ApiResult.ok ()))
        (ApiResult.err "Network Error") (ApiResult.ok "res")).state.intervalActive
      = false ∧
    (pollTick (startAnalysis initialState (ApiResult.ok ()))
        (ApiResult.err "Network Error") (ApiResult.ok "res")).state.status
      = (startAnalysis initialState (ApiResult.ok ())).status :=
  c7_error_tick_surfaces_error_preserves_status
    (startAnalysis initialState (ApiResult.ok ())) "Network Error"
    (ApiResult.ok "res") rfl

/-- C8 fails as stated: the hook copies each resolved status response
verbatim, so after a successful startAnalysis a status response carrying
"failed" puts a value outside the enumeration into the local status. -/
theorem c8_counterexample :
    (run initialState
        [Ev.start (ApiResult.ok ()),
         Ev.tick (ApiResult.ok "failed") (ApiResult.ok "res")]).status
      ∉ statusEnum := by
  decide

/-- C8 (amended): for every event sequence in which each resolved status
response carries a value of the enumeration, the local status only ever
holds a value of the enumeration; beyond the startAnalysis transition to
"processing", transitions follow the responses verbatim and are not
ordered by the client. -/
theorem c8_amended_status_stays_in_enum
    (evs : List Ev) (h : evs.all tickValueInEnum = true) :
    (run initialState evs).status ∈ statusEnum :=
  run_status_mem evs initialState (by decide)
    (fun ev hev => List.all_eq_true.mp h ev hev)

/-- Witness for the amended C8 on a start-poll-complete event trace. -/
theorem c8_witness :
    ([Ev.start (ApiResult.ok ()),
      Ev.tick (ApiResult.ok "processing") (ApiResult.ok "res"),
      Ev.tick (ApiResult.ok "completed") (ApiResult.ok "res")].all
        tickValueInEnum = true) ∧
    (run initialState
        [Ev.start (ApiResult.ok ()),
         Ev.tick (ApiResult.ok "processing") (ApiResult.ok "res"),
         Ev.tick (ApiResult.ok "completed") (ApiResult.ok "res")]).status
      ∈ statusEnum :=
  ⟨by decide,
   c8_amended_status_stays_in_enum
     [Ev.start (ApiResult.ok ()),
      Ev.tick (ApiResult.ok "processing") (ApiResult.ok "res"),
      Ev.tick (ApiResult.ok "completed") (ApiResult.ok "res")] (by decide)⟩

/-- C9: uploadFiles issues the multipart POST for every file list, the
empty list included, and the form data holds exactly one "files" entry
per selected file, in order. -/
theorem c9_uploadFiles_forwards_any_file_list
    (projectId : String) (files : List String) :
    (projectService.uploadFiles projectId files).sent = true ∧
    (projectService.uploadFiles projectId files).formData.entries
      = files.map (fun f => ("files", f)) := by
  refine ⟨rfl, ?_⟩
  simpa using foldl_append_entries files { entries := [] }

/-- C10 fails as stated: a login resolving with an empty-string
access_token stores it, yet isAuthenticated returns false, because the
truthiness check treats the empty string as absent. -/
theorem c10_counterexample :
    (authService.login { access_token := some "" }).token = some "" ∧
    authService.isAuthenticated (authService.login { access_token := some "" })
      = false := by
  decide

/-- C10 (amended): a login resolving with a body containing access_token
writes that token to storage before returning, and isAuthenticated then
returns true provided the token is non-empty. -/
theorem c10_amended_login_stores_token
    (body : authService.LoginBody) (t : String)
    (h : body.access_token = some t) :
    (authService.login body).token = some t ∧
    (t ≠ "" → authService.isAuthenticated (authService.login body) = true) := by
  refine ⟨?_, ?_⟩ <;>
    simp [authService.login, authService.isAuthenticated, truthy, h]

/-- Witness for the amended C10 at a concrete non-empty token. -/
theorem c10_witness :
    (authService.login { access_token := some "jwt0" }).token = some "jwt0" ∧
    ("jwt0" ≠ "" →
      authService.isAuthenticated (authService.login { access_token := some "jwt0" })
        = true) :=
  c10_amended_login_stores_token { access_token := some "jwt0" } "jwt0" rfl

end CodeReviewClient
